import Mathlib

/-!
Verification of the home-mining-fleet-manager core logic.

Shallow embedding of the Python source:
  * `energy.py`  — `EnergyRateManager._time_in_range`, `EnergyRateManager.get_current_rate`,
                   `MiningScheduler.should_mine_now`
  * `thermal.py` — `FrequencyProfile`, `ThermalState`, `ThermalManager.calculate_optimal_frequency`,
                   `force_frequency`, `reset_miner`
  * `alerts.py`  — `AlertManager.should_send_alert` / `send_alert` cooldown bookkeeping
  * `app.py`     — per-miner online/offline transition detection in `update_all_miners`

Times of day ("HH:MM" strings parsed with strptime in the source) are embedded as minutes
since midnight (a valid string corresponds bijectively to a number in [0, 1439], and the
string comparison `end == "23:59"` corresponds to the number 1439).  Timestamps
(`datetime.now()`) are embedded as an explicit integer parameter `now`, in seconds.
Temperatures (Python floats, only ever compared and subtracted at these magnitudes) are
embedded as rationals; frequencies (Python ints) as integers.
-/

namespace FleetManager

/-! ### energy.py : EnergyRateManager._time_in_range -/

/-- Embedding of `EnergyRateManager._time_in_range` (energy.py).
`current`, `start`, `stop` are minutes since midnight; `stop = 1439` is the
`end == "23:59"` end-of-day special case. -/
def timeInRange (current start stop : Nat) : Bool :=
  let endIsEod : Bool := stop == 1439
  if start ≤ stop then
    if endIsEod then decide (start ≤ current ∧ current ≤ stop)
    else decide (start ≤ current ∧ current < stop)
  else
    if endIsEod then decide (current ≥ start ∨ current ≤ stop)
    else decide (current ≥ start ∨ current < stop)

/-- C1: for a window with `start ≤ end`, `_time_in_range` is true iff
`start ≤ t < end`, except that an end of `23:59` (minute 1439) is inclusive;
in particular on the list `[00:00-14:00, 14:00-19:00]` the time `14:00`
(minute 840) matches only the second window — never both, never neither. -/
theorem timeInRange_normal_range (t s e : Nat) (h : s ≤ e) :
    (timeInRange t s e = true ↔ (s ≤ t ∧ (if e = 1439 then t ≤ e else t < e)))
    ∧ timeInRange 840 0 840 = false ∧ timeInRange 840 840 1140 = true := by
  refine ⟨?_, by decide, by decide⟩
  unfold timeInRange
  by_cases he : e = 1439
  · subst he; simp [h]
  · simp [h, he]

/-- C1 witness: a concrete in-range check, `08:00` inside `06:00-10:00`. -/
theorem timeInRange_normal_range_witness :
    (timeInRange 480 360 600 = true ↔
      (360 ≤ 480 ∧ (if (600 : Nat) = 1439 then 480 ≤ 600 else 480 < 600)))
    ∧ timeInRange 840 0 840 = false ∧ timeInRange 840 840 1140 = true :=
  timeInRange_normal_range 480 360 600 (by decide)

/-- C2: for a window with `start > end` (and `start` a valid time of day, at most
minute 1439), `_time_in_range` wraps past midnight: `t` matches iff `t ≥ start`
or `t < end`; concretely `23:00-07:00` matches `23:30`, `03:00`, `06:59` and
does not match `07:00` or `12:00`. -/
theorem timeInRange_wrap (t s e : Nat) (hs : s ≤ 1439) (h : e < s) :
    (timeInRange t s e = true ↔ (t ≥ s ∨ t < e))
    ∧ timeInRange 1410 1380 420 = true ∧ timeInRange 180 1380 420 = true
    ∧ timeInRange 419 1380 420 = true ∧ timeInRange 420 1380 420 = false
    ∧ timeInRange 720 1380 420 = false := by
  refine ⟨?_, by decide, by decide, by decide, by decide, by decide⟩
  have hse : ¬ s ≤ e := by omega
  have he : e ≠ 1439 := by omega
  unfold timeInRange
  simp [hse, he]

/-- C2 witness: the wrap theorem instantiated at the `23:00-07:00` window,
queried at `03:00`. -/
theorem timeInRange_wrap_witness :
    (timeInRange 180 1380 420 = true ↔ (180 ≥ 1380 ∨ 180 < 420))
    ∧ timeInRange 1410 1380 420 = true ∧ timeInRange 180 1380 420 = true
    ∧ timeInRange 419 1380 420 = true ∧ timeInRange 420 1380 420 = false
    ∧ timeInRange 720 1380 420 = false :=
  timeInRange_wrap 180 1380 420 (by decide) (by decide)

/-! ### energy.py : rate rows, `get_current_rate`, `MiningScheduler.should_mine_now` -/

/-- The seven possible outputs of Python's `datetime.now().strftime("%A")`,
used as `current_day` by both resolvers. -/
inductive Weekday
  | monday | tuesday | wednesday | thursday | friday | saturday | sunday
  deriving DecidableEq

def Weekday.name : Weekday → String
  | .monday => "Monday"
  | .tuesday => "Tuesday"
  | .wednesday => "Wednesday"
  | .thursday => "Thursday"
  | .friday => "Friday"
  | .saturday => "Saturday"
  | .sunday => "Sunday"

/-- The day filter shared by `get_current_rate` and `should_mine_now`:
`if row['day_of_week'] and row['day_of_week'] != current_day: continue`.
A row passes the filter iff `day_of_week` is falsy (`None` or the empty
string) or equals the current day name. -/
def dayMatches (d : Option String) (currentDay : String) : Bool :=
  match d with
  | none => true
  | some s => s == "" || s == currentDay

/-- A row of the `energy_rates` table as consumed by `get_current_rate`. -/
structure RateRow where
  day_of_week : Option String
  start_time : Nat
  end_time : Nat
  rate_per_kwh : Rat
  deriving DecidableEq

/-- Embedding of `EnergyRateManager.get_current_rate` (energy.py): first rate row
passing the day filter and `_time_in_range` wins; otherwise the configured
default rate (the `db.get_energy_config()` / `0.12` fallback is abstracted as
the `defaultRate` argument). -/
def getCurrentRate (rates : List RateRow) (defaultRate : Rat)
    (currentDay : String) (currentTime : Nat) : Rat :=
  match rates with
  | [] => defaultRate
  | r :: rs =>
    if dayMatches r.day_of_week currentDay
        && timeInRange currentTime r.start_time r.end_time then
      r.rate_per_kwh
    else getCurrentRate rs defaultRate currentDay currentTime

/-- A row of the `mining_schedules` table as consumed by `should_mine_now`. -/
structure ScheduleRow where
  day_of_week : Option String
  start_time : Nat
  end_time : Nat
  target_frequency : Int
  deriving DecidableEq

/-- One schedule row matches the current day and time. -/
def scheduleRowMatches (r : ScheduleRow) (currentDay : String) (currentTime : Nat) : Bool :=
  dayMatches r.day_of_week currentDay && timeInRange currentTime r.start_time r.end_time

/-- The scan loop of `MiningScheduler.should_mine_now`. -/
def shouldMineNowGo : List ScheduleRow → String → Nat → Bool × Int
  | [], _, _ => (true, 0)
  | r :: rs, day, t =>
    if scheduleRowMatches r day t then
      (decide (r.target_frequency > 0), r.target_frequency)
    else shouldMineNowGo rs day t

/-- Embedding of `MiningScheduler.should_mine_now` (energy.py): empty schedule
list returns `(True, 0)` immediately; otherwise the first row passing the day
filter and `_time_in_range` determines `(target > 0, target)`; no match falls
through to `(True, 0)`. -/
def shouldMineNow (schedules : List ScheduleRow) (currentDay : String)
    (currentTime : Nat) : Bool × Int :=
  if schedules.isEmpty then (true, 0)
  else shouldMineNowGo schedules currentDay currentTime

/-- C7: `should_mine_now` returns `(True, 0)` when the list is empty or no row
matches the current day and time, and `(f > 0, f)` for the first matching row
with target frequency `f` — so an explicit row with frequency `0` yields
`(False, 0)` ("do not mine") while the no-match default yields `(True, 0)`. -/
theorem shouldMineNow_spec (schedules : List ScheduleRow) (day : String) (t : Nat) :
    (schedules.find? (fun r => scheduleRowMatches r day t) = none →
      shouldMineNow schedules day t = (true, 0))
    ∧ (∀ r, schedules.find? (fun r => scheduleRowMatches r day t) = some r →
      shouldMineNow schedules day t = (decide (r.target_frequency > 0), r.target_frequency)) := by
  induction schedules with
  | nil => exact ⟨fun _ => rfl, fun r h => by simp [List.find?] at h⟩
  | cons a as ih =>
    constructor
    · intro h
      rw [List.find?_cons] at h
      cases hm : scheduleRowMatches a day t with
      | true => simp [hm] at h
      | false =>
        simp only [hm, cond_false] at h
        have h2 := ih.1 h
        simp only [shouldMineNow, List.isEmpty, shouldMineNowGo, hm, if_neg, Bool.false_eq_true,
          not_false_iff] at h2 ⊢
        cases as with
        | nil => simp [shouldMineNowGo]
        | cons b bs => simpa [shouldMineNow] using h2
    · intro r h
      rw [List.find?_cons] at h
      cases hm : scheduleRowMatches a day t with
      | true =>
        simp only [hm, cond_true, Option.some.injEq] at h
        subst h
        simp [shouldMineNow, shouldMineNowGo, hm]
      | false =>
        simp only [hm, cond_false] at h
        have h2 := ih.2 r h
        simp only [shouldMineNow, shouldMineNowGo, hm, Bool.false_eq_true, if_false] at h2 ⊢
        cases as with
        | nil => simp [List.find?] at h
        | cons b bs => simpa [shouldMineNow] using h2

/-- C7 witness: an explicit all-day row with frequency `0` yields `(False, 0)`;
the empty schedule yields `(True, 0)`. -/
theorem shouldMineNow_spec_witness :
    shouldMineNow [⟨some "Monday", 0, 840, 0⟩] "Monday" 300 = (false, 0)
    ∧ shouldMineNow [] "Monday" 300 = (true, 0) :=
  ⟨by
    have h := (shouldMineNow_spec [⟨some "Monday", 0, 840, 0⟩] "Monday" 300).2
      ⟨some "Monday", 0, 840, 0⟩ (by rfl)
    simpa using h,
   (shouldMineNow_spec [] "Monday" 300).1 (by rfl)⟩

lemma dayMatches_weekday_tag (d : Weekday) : dayMatches (some "weekday") d.name = false := by
  cases d <;> decide

lemma dayMatches_weekend_tag (d : Weekday) : dayMatches (some "weekend") d.name = false := by
  cases d <;> decide

/-- C10: a rate row tagged `day_of_week = 'weekday'` or `'weekend'` (as produced
by `parse_tou_schedule` and the peak-rate preset) never passes the day filter on
any real day name, so it never supplies the rate returned by
`get_current_rate`: the lookup result is unchanged when all such rows are
removed from the list. -/
theorem getCurrentRate_skips_daytype_tags (rates : List RateRow) (defaultRate : Rat)
    (d : Weekday) (t : Nat) :
    (∀ r ∈ rates,
      (r.day_of_week = some "weekday" ∨ r.day_of_week = some "weekend") →
      dayMatches r.day_of_week d.name = false)
    ∧ getCurrentRate rates defaultRate d.name t =
        getCurrentRate
          (rates.filter (fun r =>
            !(r.day_of_week == some "weekday" || r.day_of_week == some "weekend")))
          defaultRate d.name t := by
  constructor
  · intro r _ hr
    rcases hr with hr | hr <;> rw [hr]
    · exact dayMatches_weekday_tag d
    · exact dayMatches_weekend_tag d
  · induction rates with
    | nil => rfl
    | cons r rs ih =>
      cases hP : (r.day_of_week == some "weekday" || r.day_of_week == some "weekend") with
      | true =>
        have hdm : dayMatches r.day_of_week d.name = false := by
          rcases (Bool.or_eq_true _ _).mp hP with h | h
          · rw [beq_iff_eq.mp h]; exact dayMatches_weekday_tag d
          · rw [beq_iff_eq.mp h]; exact dayMatches_weekend_tag d
        have e1 : getCurrentRate (r :: rs) defaultRate d.name t =
            getCurrentRate rs defaultRate d.name t := by
          simp [getCurrentRate, hdm]
        have e2 : List.filter (fun r =>
              !(r.day_of_week == some "weekday" || r.day_of_week == some "weekend"))
            (r :: rs) =
            List.filter (fun r =>
              !(r.day_of_week == some "weekday" || r.day_of_week == some "weekend")) rs :=
          List.filter_cons_of_neg (by simp [hP])
        rw [e1, e2]
        exact ih
      | false =>
        have e2 : List.filter (fun r =>
              !(r.day_of_week == some "weekday" || r.day_of_week == some "weekend"))
            (r :: rs) =
            r :: List.filter (fun r =>
              !(r.day_of_week == some "weekday" || r.day_of_week == some "weekend")) rs :=
          List.filter_cons_of_pos (by simp [hP])
        rw [e2]
        simp only [getCurrentRate]
        by_cases hc : (dayMatches r.day_of_week d.name
            && timeInRange t r.start_time r.end_time) = true
        · rw [if_pos hc, if_pos hc]
        · rw [if_neg hc, if_neg hc]
          exact ih

/-- C10 witness: the peak-rate preset `[('weekday', 16:00-21:00, 0.17),
(None, 00:00-23:59, 0.09)]` queried on Saturday at 18:00: the `'weekday'` row
fails the day filter and the result equals the lookup with that row removed. -/
theorem getCurrentRate_skips_daytype_tags_witness :
    dayMatches (some "weekday") (Weekday.name .saturday) = false
    ∧ getCurrentRate [⟨some "weekday", 960, 1260, 17/100⟩, ⟨none, 0, 1439, 9/100⟩]
        (12/100) (Weekday.name .saturday) 1080 =
      getCurrentRate
        (([⟨some "weekday", 960, 1260, 17/100⟩, ⟨none, 0, 1439, 9/100⟩] : List RateRow).filter
          (fun r => !(r.day_of_week == some "weekday" || r.day_of_week == some "weekend")))
        (12/100) (Weekday.name .saturday) 1080 :=
  ⟨(getCurrentRate_skips_daytype_tags
      [⟨some "weekday", 960, 1260, 17/100⟩, ⟨none, 0, 1439, 9/100⟩]
      (12/100) .saturday 1080).1
      ⟨some "weekday", 960, 1260, 17/100⟩ (by simp) (Or.inl rfl),
   (getCurrentRate_skips_daytype_tags
      [⟨some "weekday", 960, 1260, 17/100⟩, ⟨none, 0, 1439, 9/100⟩]
      (12/100) .saturday 1080).2⟩

/-! ### alerts.py : AlertManager cooldown bookkeeping -/

/-- Default `AlertConfig.alert_cooldown` (alerts.py): `timedelta(minutes=15)`,
i.e. 900 seconds. -/
def alertCooldown : Int := 900

/-- Embedding of `AlertManager.should_send_alert` (alerts.py).  `lastAlerts` is
the `self.last_alerts` dict, keyed by `(alert_type, miner_ip or "global")`
(the f-string key `f"{type}:{ip or 'global'}"` is embedded as the pair it
encodes); returns `False` iff an entry exists with `now - last_time <
cooldown`. -/
def shouldSendAlert (lastAlerts : String × String → Option Int) (cooldown now : Int)
    (eventType : String) (minerIp : Option String) : Bool :=
  match lastAlerts (eventType, minerIp.getD "global") with
  | none => true
  | some lastTime => decide (¬ (now - lastTime < cooldown))

/-- Embedding of the `send_alert` bookkeeping `self.last_alerts[key] =
datetime.now()` (alerts.py): overwrite the entry for this alert's key. -/
def recordSent (lastAlerts : String × String → Option Int) (now : Int)
    (eventType : String) (minerIp : Option String) : String × String → Option Int :=
  fun k => if k = (eventType, minerIp.getD "global") then some now else lastAlerts k

/-- C6: after a send of `(evt, dev)` is recorded at `tSent`, `should_send_alert`
for the same key is false strictly within the cooldown, true at or after
exactly the cooldown has elapsed; a different event type, or a different
(named) device, is unaffected by the recorded entry. -/
theorem shouldSendAlert_cooldown (lastAlerts : String × String → Option Int)
    (cooldown now tSent : Int) (evt : String) (dev : Option String)
    (evt' : String) (dev' : Option String) :
    (now - tSent < cooldown →
      shouldSendAlert (recordSent lastAlerts tSent evt dev) cooldown now evt dev = false)
    ∧ (cooldown ≤ now - tSent →
      shouldSendAlert (recordSent lastAlerts tSent evt dev) cooldown now evt dev = true)
    ∧ (evt' ≠ evt →
      shouldSendAlert (recordSent lastAlerts tSent evt dev) cooldown now evt' dev' =
        shouldSendAlert lastAlerts cooldown now evt' dev')
    ∧ (∀ ip ip', dev = some ip → dev' = some ip' → ip' ≠ ip →
      shouldSendAlert (recordSent lastAlerts tSent evt dev) cooldown now evt' dev' =
        shouldSendAlert lastAlerts cooldown now evt' dev') := by
  refine ⟨?_, ?_, ?_, ?_⟩
  · intro h
    simp only [shouldSendAlert, recordSent, if_pos rfl]
    simp [h]
  · intro h
    simp only [shouldSendAlert, recordSent, if_pos rfl]
    simp
    omega
  · intro h
    have hk : (evt', dev'.getD "global") ≠ (evt, dev.getD "global") := by
      intro hc
      exact h (congrArg Prod.fst hc)
    simp only [shouldSendAlert, recordSent, if_neg hk]
  · intro ip ip' hdev hdev' hne
    have hk : (evt', dev'.getD "global") ≠ (evt, dev.getD "global") := by
      intro hc
      rw [hdev, hdev'] at hc
      exact hne (congrArg Prod.snd hc)
    simp only [shouldSendAlert, recordSent, if_neg hk]

/-- C6 witness: a `miner_offline` alert for `10.0.0.2` recorded at `t = 0` with
the default 15-minute (900 s) cooldown: suppressed at `t = 600`, allowed again
at exactly `t = 900`, and a different device `10.0.0.3` is unaffected. -/
theorem shouldSendAlert_cooldown_witness :
    shouldSendAlert (recordSent (fun _ => none) 0 "miner_offline" (some "10.0.0.2"))
      alertCooldown 600 "miner_offline" (some "10.0.0.2") = false
    ∧ shouldSendAlert (recordSent (fun _ => none) 0 "miner_offline" (some "10.0.0.2"))
      alertCooldown 900 "miner_offline" (some "10.0.0.2") = true
    ∧ shouldSendAlert (recordSent (fun _ => none) 0 "miner_offline" (some "10.0.0.2"))
      alertCooldown 600 "miner_offline" (some "10.0.0.3") =
        shouldSendAlert (fun _ => none) alertCooldown 600 "miner_offline" (some "10.0.0.3") :=
  ⟨(shouldSendAlert_cooldown (fun _ => none) alertCooldown 600 0 "miner_offline"
      (some "10.0.0.2") "miner_offline" (some "10.0.0.2")).1 (by decide),
   (shouldSendAlert_cooldown (fun _ => none) alertCooldown 900 0 "miner_offline"
      (some "10.0.0.2") "miner_offline" (some "10.0.0.2")).2.1 (by decide),
   (shouldSendAlert_cooldown (fun _ => none) alertCooldown 600 0 "miner_offline"
      (some "10.0.0.2") "miner_offline" (some "10.0.0.3")).2.2.2
      "10.0.0.2" "10.0.0.3" rfl rfl (by decide)⟩

/-! ### thermal.py : profiles, ThermalState, ThermalManager -/

/-- Embedding of `FrequencyProfile` (thermal.py). -/
structure FrequencyProfile where
  min_freq : Int
  max_freq : Int
  default_freq : Int
  optimal_temp : Rat
  warning_temp : Rat
  critical_temp : Rat
  max_chip_temp : Rat
  temp_hysteresis : Rat
  freq_step : Int
  deriving DecidableEq

def bitaxeProfile : FrequencyProfile := ⟨400, 600, 490, 60, 65, 68, 75, 2, 10⟩
def antminerProfile : FrequencyProfile := ⟨400, 650, 550, 65, 75, 80, 85, 3, 25⟩
def whatsminerProfile : FrequencyProfile := ⟨400, 650, 550, 65, 75, 80, 85, 3, 25⟩
def avalonProfile : FrequencyProfile := ⟨400, 650, 550, 65, 75, 80, 85, 3, 25⟩
def unknownProfile : FrequencyProfile := ⟨400, 500, 450, 60, 65, 70, 75, 2, 10⟩

/-- `MINER_PROFILES.get(miner_type, MINER_PROFILES['Unknown'])` (thermal.py). -/
def minerProfiles (minerType : String) : FrequencyProfile :=
  if minerType == "Bitaxe" then bitaxeProfile
  else if minerType == "Antminer" then antminerProfile
  else if minerType == "Whatsminer" then whatsminerProfile
  else if minerType == "Avalon" then avalonProfile
  else unknownProfile

/-- `ThermalState.cooldown_duration = timedelta(minutes=10)`, in seconds. -/
def cooldownDuration : Int := 600

/-- `ThermalState.adjustment_interval = timedelta(seconds=30)`, in seconds. -/
def adjustmentInterval : Int := 30

/-- Embedding of `ThermalState` (thermal.py).  `temp_history` entries are
`(timestamp, temp, freq)`; `hashrate_history` entries are
`(timestamp, hashrate, freq, temp)`. -/
structure ThermalState where
  profile : FrequencyProfile
  current_freq : Int
  current_temp : Rat
  last_temp : Rat
  temp_trend : Rat
  in_emergency_cooldown : Bool
  cooldown_started : Option Int
  auto_tune_enabled : Bool
  last_adjustment : Option Int
  temp_history : List (Int × Rat × Int)
  hashrate_history : List (Int × Rat × Int × Rat)
  deriving DecidableEq

/-- `ThermalState.__init__` (thermal.py). -/
def ThermalState.init (minerType : String) : ThermalState :=
  { profile := minerProfiles minerType
    current_freq := (minerProfiles minerType).default_freq
    current_temp := 0
    last_temp := 0
    temp_trend := 0
    in_emergency_cooldown := false
    cooldown_started := none
    auto_tune_enabled := true
    last_adjustment := none
    temp_history := []
    hashrate_history := [] }

/-- `ThermalState.update_temperature` (thermal.py): shift `current_temp` into
`last_temp`, recompute the trend (only when the previous temperature was
positive), append to the rolling history and drop entries older than an hour
(`h['timestamp'] > now - 1h`). -/
def updateTemperature (now : Int) (temp : Rat) (s : ThermalState) : ThermalState :=
  let lastT := s.current_temp
  let trend := if lastT > 0 then temp - lastT else s.temp_trend
  { s with
    last_temp := lastT
    current_temp := temp
    temp_trend := trend
    temp_history := (s.temp_history ++ [(now, temp, s.current_freq)]).filter
      (fun h => now - 3600 < h.1) }

/-- `ThermalState.update_hashrate` (thermal.py). -/
def updateHashrate (now : Int) (hashrate : Rat) (s : ThermalState) : ThermalState :=
  { s with
    hashrate_history := (s.hashrate_history ++ [(now, hashrate, s.current_freq, s.current_temp)]).filter
      (fun h => now - 3600 < h.1) }

/-- `ThermalManager.update_miner_stats` (thermal.py) for a registered miner. -/
def updateMinerStats (now : Int) (temp : Rat) (hashrate : Option Rat)
    (s : ThermalState) : ThermalState :=
  let s1 := updateTemperature now temp s
  match hashrate with
  | none => s1
  | some hr => updateHashrate now hr s1

/-- `ThermalState.check_emergency_cooldown` (thermal.py): returns whether the
miner is still cooling down, clearing the flag once the duration has elapsed.
(`cooldown_started` is always set while `in_emergency_cooldown` holds in the
source; the `getD 0` default is never reached on such states.) -/
def checkEmergencyCooldown (now : Int) (s : ThermalState) : Bool × ThermalState :=
  if s.in_emergency_cooldown = false then (false, s)
  else
    let elapsed := now - s.cooldown_started.getD 0
    if elapsed ≥ cooldownDuration then
      (false, { s with in_emergency_cooldown := false, cooldown_started := none })
    else (true, s)

/-- `ThermalState.trigger_emergency_shutdown` (thermal.py). -/
def triggerEmergencyShutdown (now : Int) (s : ThermalState) : ThermalState :=
  { s with in_emergency_cooldown := true, cooldown_started := some now, current_freq := 0 }

/-- `ThermalState.can_adjust_frequency` (thermal.py). -/
def canAdjustFrequency (now : Int) (s : ThermalState) : Bool :=
  match s.last_adjustment with
  | none => true
  | some t => decide (now - t ≥ adjustmentInterval)

/-- Embedding of `ThermalManager.calculate_optimal_frequency` (thermal.py) for a
registered miner: returns `(target_frequency, reason)` together with the state
after the call (the Python method mutates `state` in place). -/
def calculateOptimalFrequency (globalAutoTune : Bool) (now : Int) (s : ThermalState) :
    (Int × String) × ThermalState :=
  let cc := checkEmergencyCooldown now s
  let s1 := cc.2
  if cc.1 then ((0, "Emergency cooldown in progress"), s1)
  else if s1.current_temp ≥ s1.profile.critical_temp then
    ((0, "EMERGENCY: critical temp exceeded"), triggerEmergencyShutdown now s1)
  else if !s1.auto_tune_enabled || !globalAutoTune then
    ((s1.current_freq, "Auto-tune disabled"), s1)
  else if !(canAdjustFrequency now s1) then
    ((s1.current_freq, "Too soon since last adjustment"), s1)
  else
    let p := s1.profile
    let cf := s1.current_freq
    let ct := s1.current_temp
    let tr : Int × String :=
      if ct ≥ p.warning_temp then
        (max p.min_freq (cf - p.freq_step * 2), "Too hot, reducing frequency")
      else if ct > p.optimal_temp + p.temp_hysteresis then
        (max p.min_freq (cf - p.freq_step), "Above optimal, reducing")
      else if ct < p.optimal_temp - p.temp_hysteresis then
        if s1.temp_trend ≤ 1 then
          (min p.max_freq (cf + p.freq_step), "Below optimal, increasing")
        else (cf, "Below optimal but temp rising, holding")
      else (cf, "In optimal range")
    if tr.1 ≠ cf then
      (tr, { s1 with last_adjustment := some now, current_freq := tr.1 })
    else (tr, s1)

/-- `ThermalManager.force_frequency` (thermal.py) for a registered miner:
clamp to the profile's safe range and disable auto-tune. -/
def forceFrequency (frequency : Int) (s : ThermalState) : ThermalState :=
  { s with
    current_freq := max s.profile.min_freq (min s.profile.max_freq frequency)
    auto_tune_enabled := false }

/-- `ThermalManager.reset_miner` (thermal.py) for a registered miner. -/
def resetMiner (s : ThermalState) : ThermalState :=
  { s with
    current_freq := s.profile.default_freq
    auto_tune_enabled := true
    in_emergency_cooldown := false
    cooldown_started := none }

/-- Feed a list of `(timestamp, temperature)` samples through the controller the
way `update_all_miners` does each tick (temperature update, then
`calculate_optimal_frequency`), collecting the returned target frequencies. -/
def runSamples (globalAutoTune : Bool) : List (Int × Rat) → ThermalState → List Int × ThermalState
  | [], s => ([], s)
  | (now, temp) :: rest, s =>
    let s1 := updateTemperature now temp s
    let r := calculateOptimalFrequency globalAutoTune now s1
    let rec' := runSamples globalAutoTune rest r.2
    (r.1.1 :: rec'.1, rec'.2)

/-- C3: a sample at or above `critical_temp` (outside cooldown) zeroes
`current_freq` and enters cooldown with `cooldown_started = now`; every call
while `now - cooldown_started < 10` minutes returns target `0` and leaves the
state untouched (so no number or value of samples can raise it); temperature
samples never touch the cooldown fields; and the controller leaves cooldown on
the first call with `now - cooldown_started ≥ 10` minutes — immediately
re-entering a fresh cooldown only if the current temperature is still
critical. -/
theorem thermal_cooldown_spec (g : Bool) (now now' t : Int) (temp : Rat) (s : ThermalState) :
    (s.in_emergency_cooldown = false →
      temp ≥ s.profile.critical_temp →
      (calculateOptimalFrequency g now (updateTemperature now temp s)).1.1 = 0
      ∧ (calculateOptimalFrequency g now (updateTemperature now temp s)).2.current_freq = 0
      ∧ (calculateOptimalFrequency g now (updateTemperature now temp s)).2.in_emergency_cooldown = true
      ∧ (calculateOptimalFrequency g now (updateTemperature now temp s)).2.cooldown_started = some now)
    ∧ (s.in_emergency_cooldown = true → s.cooldown_started = some t → now - t < cooldownDuration →
      (calculateOptimalFrequency g now s).1.1 = 0
      ∧ (calculateOptimalFrequency g now s).2 = s)
    ∧ ((updateTemperature now' temp s).in_emergency_cooldown = s.in_emergency_cooldown
      ∧ (updateTemperature now' temp s).cooldown_started = s.cooldown_started)
    ∧ (s.in_emergency_cooldown = true → s.cooldown_started = some t → now - t ≥ cooldownDuration →
      s.current_temp < s.profile.critical_temp →
      (calculateOptimalFrequency g now s).2.in_emergency_cooldown = false)
    ∧ (s.in_emergency_cooldown = true → s.cooldown_started = some t → now - t ≥ cooldownDuration →
      s.current_temp ≥ s.profile.critical_temp →
      (calculateOptimalFrequency g now s).2.in_emergency_cooldown = true
      ∧ (calculateOptimalFrequency g now s).2.cooldown_started = some now) := by
  refine ⟨?_, ?_, ?_, ?_, ?_⟩
  · intro hc ht
    simp [calculateOptimalFrequency, checkEmergencyCooldown, updateTemperature,
      triggerEmergencyShutdown, hc, ht]
  · intro hc hst hlt
    have hnot : ¬ (now - (s.cooldown_started.getD 0) ≥ cooldownDuration) := by
      rw [hst]; simpa using by omega
    simp [calculateOptimalFrequency, checkEmergencyCooldown, hc, hnot]
  · constructor <;> rfl
  · intro hc hst hge hlt
    have hge' : now - (s.cooldown_started.getD 0) ≥ cooldownDuration := by
      rw [hst]; simpa using hge
    have hcc : checkEmergencyCooldown now s =
        (false, { s with in_emergency_cooldown := false, cooldown_started := none }) := by
      unfold checkEmergencyCooldown
      rw [hc]
      simp [hge']
    have hlt' : ¬ (s.current_temp ≥ s.profile.critical_temp) := not_le.mpr hlt
    unfold calculateOptimalFrequency
    rw [hcc]
    dsimp only
    rw [if_neg (by simp), if_neg (by simpa using hlt')]
    split_ifs <;> rfl
  · intro hc hst hge hcrit
    have hge' : now - (s.cooldown_started.getD 0) ≥ cooldownDuration := by
      rw [hst]; simpa using hge
    simp [calculateOptimalFrequency, checkEmergencyCooldown, triggerEmergencyShutdown,
      hc, hge', hcrit]

/-- C3 witness: `Unknown`-profile miner shut down by a 72 °C sample at `t = 0`:
at `t = 300` (inside the 10-minute window) the call returns `0` and leaves the
state unchanged. -/
theorem thermal_cooldown_spec_witness :
    (calculateOptimalFrequency true 300
      (calculateOptimalFrequency true 0
        (updateTemperature 0 72 (ThermalState.init "Unknown"))).2).1.1 = 0
    ∧ (calculateOptimalFrequency true 300
      (calculateOptimalFrequency true 0
        (updateTemperature 0 72 (ThermalState.init "Unknown"))).2).2 =
      (calculateOptimalFrequency true 0
        (updateTemperature 0 72 (ThermalState.init "Unknown"))).2 :=
  (thermal_cooldown_spec true 300 300 0 72
    (calculateOptimalFrequency true 0
      (updateTemperature 0 72 (ThermalState.init "Unknown"))).2).2.1
    (by with_unfolding_all decide) (by with_unfolding_all decide) (by with_unfolding_all decide)

/-- C5 counterexample: on the stated profile (the `Unknown` profile:
`optimal 60, warning 65, critical 70, step 10`) starting from 490 MHz with
auto-tune on and samples 30 s apart, the produced target sequence is not the
claimed `[490, 480, 460, 0]` — the second sample (66 °C ≥ warning 65) takes the
warning branch, which steps down by `2 × freq_step = 20`, giving 470. -/
theorem c5_sequence_counterexample :
    (runSamples true [(0, 60), (60, 66), (120, 69), (180, 72)]
      { ThermalState.init "Unknown" with current_freq := 490 }).1 ≠ [490, 480, 460, 0]
    ∧ ((runSamples true [(0, 60), (60, 66), (120, 69), (180, 72)]
      { ThermalState.init "Unknown" with current_freq := 490 }).1).get? 1 = some 470 := by
  constructor
  · with_unfolding_all decide
  · with_unfolding_all decide

/-- C5 (amended): feeding `[60, 66, 69, 72]` °C into the controller on the
`{optimal 60, warning 65, critical 70, step 10}` profile at 490 MHz yields
target frequencies `[490, 470, 450, 0]` (warning samples step down by
`2 × freq_step`), with the device in emergency cooldown after the last
sample. -/
theorem c5_sequence :
    (runSamples true [(0, 60), (60, 66), (120, 69), (180, 72)]
      { ThermalState.init "Unknown" with current_freq := 490 }).1 = [490, 470, 450, 0]
    ∧ (runSamples true [(0, 60), (60, 66), (120, 69), (180, 72)]
      { ThermalState.init "Unknown" with current_freq := 490 }).2.in_emergency_cooldown = true := by
  constructor
  · with_unfolding_all decide
  · with_unfolding_all decide

/-- C9: the frequency-bounds invariant is violated on a reachable state: an
`Unknown`-profile miner emergency-shut-down at `t = 0` (72 °C ≥ critical 70)
and sampled cool (50 °C) at `t = 601` s, just after cooldown expiry, takes the
increase branch `min(max_freq, 0 + freq_step)` and lands on `current_freq = 10`
with `0 < 10 < min_freq = 400`. -/
theorem thermal_invariant_violation :
    0 < (calculateOptimalFrequency true 601 (updateTemperature 601 50
      (calculateOptimalFrequency true 0 (updateTemperature 0 72
        (ThermalState.init "Unknown"))).2)).2.current_freq
    ∧ (calculateOptimalFrequency true 601 (updateTemperature 601 50
      (calculateOptimalFrequency true 0 (updateTemperature 0 72
        (ThermalState.init "Unknown"))).2)).2.current_freq <
      (calculateOptimalFrequency true 601 (updateTemperature 601 50
        (calculateOptimalFrequency true 0 (updateTemperature 0 72
          (ThermalState.init "Unknown"))).2)).2.profile.min_freq := by
  constructor
  · with_unfolding_all decide
  · with_unfolding_all decide

/-- C4 counterexample: both 72 °C and 66 °C are strictly above the `Unknown`
profile's `warning_temp` (65), yet the returned target-frequency sequence for
samples `[72 at t=0, 66 at t=600 s]` from the default state is `[0, 400]` —
an increase — because the first sample triggers emergency shutdown and the
second, arriving at cooldown expiry, steps the frequency back up from 0. -/
theorem runSamples_warning_not_monotone :
    ((72 : Rat) > unknownProfile.warning_temp ∧ (66 : Rat) > unknownProfile.warning_temp)
    ∧ (runSamples true [(0, 72), (600, 66)] (ThermalState.init "Unknown")).1 = [0, 400]
    ∧ ¬ ((400 : Int) ≤ 0) := by
  refine ⟨by decide, by with_unfolding_all decide, by decide⟩

/-- A call on a state outside cooldown whose current temperature sits at or
above `warning_temp` but below `critical_temp`: the returned target equals the
new `current_freq`, which never increases, stays at or above `min_freq`
(given `min_freq ≤ current_freq` and `0 ≤ freq_step`), and the state stays out
of cooldown with the same profile. -/
theorem calcOptimal_warning_core (g : Bool) (now : Int) (s : ThermalState)
    (hcool : s.in_emergency_cooldown = false)
    (hmin : s.profile.min_freq ≤ s.current_freq)
    (hstep : 0 ≤ s.profile.freq_step)
    (hw : s.profile.warning_temp ≤ s.current_temp)
    (hc : s.current_temp < s.profile.critical_temp) :
    (calculateOptimalFrequency g now s).1.1 = (calculateOptimalFrequency g now s).2.current_freq
    ∧ (calculateOptimalFrequency g now s).2.current_freq ≤ s.current_freq
    ∧ s.profile.min_freq ≤ (calculateOptimalFrequency g now s).2.current_freq
    ∧ (calculateOptimalFrequency g now s).2.in_emergency_cooldown = false
    ∧ (calculateOptimalFrequency g now s).2.profile = s.profile := by
  have hcc : checkEmergencyCooldown now s = (false, s) := by
    unfold checkEmergencyCooldown
    rw [hcool]
    simp
  unfold calculateOptimalFrequency
  rw [hcc]
  dsimp only
  rw [if_neg (by simp), if_neg (not_le.mpr hc)]
  split_ifs with h5 h6 h7
  · exact ⟨rfl, le_refl _, hmin, hcool, rfl⟩
  · exact ⟨rfl, le_refl _, hmin, hcool, rfl⟩
  · refine ⟨rfl, max_le hmin (by omega), le_max_left _ _, hcool, rfl⟩
  · push_neg at h7
    refine ⟨h7, le_refl _, hmin, hcool, rfl⟩

/-- One warning-range sample step: temperature update followed by
`calculate_optimal_frequency`, specialised from `calcOptimal_warning_core`. -/
theorem calcOptimal_warning_step (g : Bool) (now : Int) (temp : Rat) (s : ThermalState)
    (hcool : s.in_emergency_cooldown = false)
    (hmin : s.profile.min_freq ≤ s.current_freq)
    (hstep : 0 ≤ s.profile.freq_step)
    (hw : s.profile.warning_temp < temp) (hc : temp < s.profile.critical_temp) :
    (calculateOptimalFrequency g now (updateTemperature now temp s)).1.1 =
      (calculateOptimalFrequency g now (updateTemperature now temp s)).2.current_freq
    ∧ (calculateOptimalFrequency g now (updateTemperature now temp s)).2.current_freq ≤
        s.current_freq
    ∧ s.profile.min_freq ≤
        (calculateOptimalFrequency g now (updateTemperature now temp s)).2.current_freq
    ∧ (calculateOptimalFrequency g now (updateTemperature now temp s)).2.in_emergency_cooldown
        = false
    ∧ (calculateOptimalFrequency g now (updateTemperature now temp s)).2.profile = s.profile := by
  exact calcOptimal_warning_core g now (updateTemperature now temp s)
    hcool hmin hstep (le_of_lt hw) hc

/-- C4 (amended): for every registered device outside emergency cooldown with
`min_freq ≤ current_freq` and a nonnegative `freq_step`, feeding any sequence
of samples strictly between `warning_temp` and `critical_temp` yields a
non-increasing target-frequency sequence bounded below by `min_freq` and never
above the starting frequency.  (Once a sample may reach `critical_temp`, the
frequency can rise after cooldown expiry — from 0 back up — as the
counterexample shows, so the unconditional claim fails.) -/
theorem runSamples_warning_monotone (g : Bool) (samples : List (Int × Rat)) (s : ThermalState)
    (hcool : s.in_emergency_cooldown = false)
    (hmin : s.profile.min_freq ≤ s.current_freq)
    (hstep : 0 ≤ s.profile.freq_step)
    (htemps : ∀ p ∈ samples, s.profile.warning_temp < p.2 ∧ p.2 < s.profile.critical_temp) :
    List.Chain' (fun a b => b ≤ a) (runSamples g samples s).1
    ∧ ∀ f ∈ (runSamples g samples s).1,
        s.profile.min_freq ≤ f ∧ f ≤ s.current_freq := by
  induction samples generalizing s with
  | nil =>
    exact ⟨List.chain'_nil, by simp [runSamples]⟩
  | cons p rest ih =>
    obtain ⟨now, temp⟩ := p
    have hp := htemps (now, temp) (List.mem_cons_self _ _)
    obtain ⟨e1, e2, e3, e4, e5⟩ :=
      calcOptimal_warning_step g now temp s hcool hmin hstep hp.1 hp.2
    have hrest := ih (calculateOptimalFrequency g now (updateTemperature now temp s)).2
      e4 (by rw [e5]; exact e3) (by rw [e5]; exact hstep)
      (by rw [e5]; exact fun q hq => htemps q (List.mem_cons_of_mem _ hq))
    have hrun : runSamples g ((now, temp) :: rest) s =
        ((calculateOptimalFrequency g now (updateTemperature now temp s)).1.1 ::
          (runSamples g rest
            (calculateOptimalFrequency g now (updateTemperature now temp s)).2).1,
         (runSamples g rest
            (calculateOptimalFrequency g now (updateTemperature now temp s)).2).2) := rfl
    rw [hrun]
    constructor
    · rw [List.chain'_cons']
      refine ⟨?_, hrest.1⟩
      intro y hy
      have hym := List.mem_of_mem_head? hy
      have hyb := (hrest.2 y hym).2
      rw [e1]
      exact hyb
    · intro f hf
      rcases List.mem_cons.mp hf with hf | hf
      · subst hf
        rw [e1]
        exact ⟨e3, e2⟩
      · have hfb := hrest.2 f hf
        rw [e5] at hfb
        exact ⟨hfb.1, le_trans hfb.2 e2⟩

/-- C4 witness: the `Unknown`-profile default state fed two warning-range
samples (66 °C, 67 °C): the conclusion holds with every hypothesis discharged
concretely. -/
theorem runSamples_warning_monotone_witness :
    List.Chain' (fun a b => b ≤ a)
      (runSamples true [(0, 66), (60, 67)] (ThermalState.init "Unknown")).1
    ∧ ∀ f ∈ (runSamples true [(0, 66), (60, 67)] (ThermalState.init "Unknown")).1,
        (ThermalState.init "Unknown").profile.min_freq ≤ f
        ∧ f ≤ (ThermalState.init "Unknown").current_freq :=
  runSamples_warning_monotone true [(0, 66), (60, 67)] (ThermalState.init "Unknown")
    (by decide) (by decide) (by decide) (by decide)

/-! ### app.py : per-miner status transition detection in update_all_miners -/

/-- `is_responding = miner_status in ('online', 'overheating', 'overheated')`
(app.py, `update_miner`). -/
def isResponding (status : String) : Bool :=
  status == "online" || status == "overheating" || status == "overheated"

/-- The alert-relevant effects of one poll of one miner in
`MinerDashboard.update_all_miners.update_miner` (app.py): whether a recovery
(miner-online) alert was delivered, whether `alert_miner_offline` was called,
the new `miner_alert_states[ip]['was_online']` flag, and whether the body
raised an exception that the blanket `except` at the end of `update_miner`
swallowed. -/
structure PollEffects where
  recoveryAlert : Bool
  offlineAlert : Bool
  wasOnline : Bool
  raised : Bool
  deriving DecidableEq

/-- Embedding of the transition-detection logic of `update_miner` (app.py).
On a responding poll with `status == 'online'` and the flag clear, the code
calls `self.alert_mgr.alert_miner_online(...)` — but `AlertManager` (alerts.py)
defines no such method, so the call raises `AttributeError`, the per-miner
`except Exception` handler swallows it, and the rest of the body — including
the `was_online` update — is skipped: no alert is delivered and the flag keeps
its value.  On every other responding poll the flag is set to
`status in ('online', 'overheating')`.  Non-responding polls call the existing
`alert_miner_offline` iff the flag was on, then clear it. -/
def updateMinerTransition (wasOnline : Bool) (status : String) : PollEffects :=
  if isResponding status then
    if status == "online" && !wasOnline then
      { recoveryAlert := false
        offlineAlert := false
        wasOnline := wasOnline
        raised := true }
    else
      { recoveryAlert := false
        offlineAlert := false
        wasOnline := status == "online" || status == "overheating"
        raised := false }
  else
    { recoveryAlert := false
      offlineAlert := wasOnline
      wasOnline := false
      raised := false }

/-- Fold a status sequence through the per-tick transition logic starting from
a given `was_online` flag (app.py initialises it to `False`), returning
`(recovery alert count, offline alert count, final flag)`. -/
def runStatusSequence : Bool → List String → Nat × Nat × Bool
  | w, [] => (0, 0, w)
  | w, st :: sts =>
    let e := updateMinerTransition w st
    let rest := runStatusSequence e.wasOnline sts
    (rest.1 + (if e.recoveryAlert then 1 else 0),
     rest.2.1 + (if e.offlineAlert then 1 else 0),
     rest.2.2)

/-- C8 counterexample: from the initial clear flag, the sequence
`offline, online` delivers zero recovery alerts — the `alert_miner_online`
call raises the swallowed `AttributeError` instead — refuting the claim that a
not-responding-to-online change fires a recovery alert; and both
`online, offline` (the flag update was skipped by the exception) and
`overheated, offline` (the flag records only online/overheating) deliver zero
offline alerts, refuting the claim that every responding-to-offline change
fires one. -/
theorem minerTransition_claim_counterexample :
    isResponding "online" = true
    ∧ isResponding "overheated" = true
    ∧ isResponding "offline" = false
    ∧ (runStatusSequence false ["offline", "online"]).1 = 0
    ∧ (updateMinerTransition false "online").raised = true
    ∧ (runStatusSequence false ["online", "offline"]).2.1 = 0
    ∧ (runStatusSequence false ["overheated", "offline"]).2.1 = 0 := by
  refine ⟨by decide, by decide, by decide, by decide, by decide, by decide, by decide⟩

/-- C8 (amended): no recovery (miner-online) alert is ever delivered — on a
fresh-flag online poll the `alert_miner_online` call raises a swallowed
`AttributeError` and the flag stays clear; on any other responding poll the
flag becomes `status in ('online', 'overheating')` (so an `overheating` poll
sets it and an `overheated` poll clears it); a non-responding poll fires an
offline alert iff the flag was set, exactly once, clearing the flag, so
repeated offline polls fire no further offline alerts. -/
theorem minerTransition_step_alerts (w : Bool) (st next later : String) :
    ((updateMinerTransition w st).recoveryAlert = false)
    ∧ ((updateMinerTransition false "online").raised = true
      ∧ (updateMinerTransition false "online").wasOnline = false
      ∧ (updateMinerTransition false "online").offlineAlert = false)
    ∧ (isResponding st = true → (st == "online" && !w) = false →
      (updateMinerTransition w st).wasOnline = (st == "online" || st == "overheating")
      ∧ (updateMinerTransition w st).offlineAlert = false
      ∧ (updateMinerTransition w st).raised = false)
    ∧ (isResponding next = false →
      (updateMinerTransition w next).offlineAlert = w
      ∧ (updateMinerTransition w next).wasOnline = false)
    ∧ (isResponding next = false → isResponding later = false →
      (updateMinerTransition (updateMinerTransition w next).wasOnline later).offlineAlert
        = false) := by
  refine ⟨?_, ?_, ?_, ?_, ?_⟩
  · unfold updateMinerTransition
    split_ifs <;> rfl
  · refine ⟨?_, ?_, ?_⟩ <;> decide
  · intro hr hno
    unfold updateMinerTransition
    rw [if_pos hr, if_neg (by rw [hno]; exact Bool.false_ne_true)]
    exact ⟨rfl, rfl, rfl⟩
  · intro hn
    unfold updateMinerTransition
    rw [if_neg (by rw [hn]; exact Bool.false_ne_true)]
    exact ⟨rfl, rfl⟩
  · intro hn hl
    unfold updateMinerTransition
    rw [if_neg (by rw [hl]; exact Bool.false_ne_true),
      if_neg (by rw [hn]; exact Bool.false_ne_true)]

/-- C8 witness: a device marked by an `overheating` poll fires an offline alert
exactly once on going offline (flag cleared), a second offline poll fires none,
and the fresh-flag online poll delivers no recovery alert. -/
theorem minerTransition_step_alerts_witness :
    ((updateMinerTransition true "overheating").wasOnline
        = ("overheating" == "online" || "overheating" == "overheating")
      ∧ (updateMinerTransition true "overheating").offlineAlert = false
      ∧ (updateMinerTransition true "overheating").raised = false)
    ∧ ((updateMinerTransition true "offline").offlineAlert = true
      ∧ (updateMinerTransition true "offline").wasOnline = false)
    ∧ (updateMinerTransition (updateMinerTransition true "offline").wasOnline
        "offline").offlineAlert = false
    ∧ (updateMinerTransition false "online").recoveryAlert = false :=
  ⟨(minerTransition_step_alerts true "overheating" "offline" "offline").2.2.1
      (by decide) (by decide),
   (minerTransition_step_alerts true "overheating" "offline" "offline").2.2.2.1
      (by decide),
   (minerTransition_step_alerts true "overheating" "offline" "offline").2.2.2.2
      (by decide) (by decide),
   (minerTransition_step_alerts false "online" "offline" "offline").1⟩

end FleetManager
